import Mathlib

/-!
Verification development for the thetadata-api-python client library.

The Python source is shallowly embedded: pure helpers become Lean
functions; methods that perform I/O (HTTP transport, CSV files) become
functions parameterised by a transport oracle and returning, besides the
Python return value, the list of transport calls and CSV-write events
they would perform, or an explicit file-system state transformer for the
streaming consumer.  Python exceptions are modelled with Except, Python
None results with Option.
-/

namespace ThetaData

/-- Decoded JSON values, as returned by response.json() / json.loads.
Numeric payloads are modelled as integers; no claim depends on float
rendering. -/
inductive Json where
  | obj  : List (String × Json) → Json
  | arr  : List Json → Json
  | str  : String → Json
  | int  : Int → Json
  | bool : Bool → Json
  | null : Json

/-- Python truthiness of a decoded JSON value: empty dict, empty list,
empty string, zero, False and None are falsy, everything else truthy. -/
def Json.truthy : Json → Bool
  | .obj l  => !l.isEmpty
  | .arr l  => !l.isEmpty
  | .str s  => !s.isEmpty
  | .int n  => n != 0
  | .bool b => b
  | .null   => false

/-- Python d[k] on a dict: the value at key k, if present (first match,
as in a dict with unique keys).  Returns none where Python would raise
KeyError, and on non-dict values where Python would raise TypeError. -/
def Json.getKey : Json → String → Option Json
  | .obj l, k => l.lookup k
  | _, _ => none

/-- Python str() on the scalar payload values that occur on the wire
(strings, numbers, booleans, null).  Containers never occur as trade or
quote fields, so their rendering is a fixed marker. -/
def Json.pyStr : Json → String
  | .str s  => s
  | .int n  => toString n
  | .bool b => if b then "True" else "False"
  | .null   => "None"
  | .obj _  => "\x7b...\x7d"
  | .arr _  => "[...]"

/-- Python equality test of a decoded value against a string literal
(j == "..."): true exactly when j is that string. -/
def Json.isStr (j : Json) (s : String) : Bool :=
  match j with
  | .str t => t == s
  | _ => false

/-- utils.is_valid_date_format: len(date_string) == 8 and
date_string.isdigit(). -/
def is_valid_date_format (date_string : String) : Bool :=
  date_string.length == 8 && date_string.data.all Char.isDigit

/-- utils.is_valid_right: right in ["C", "P"]. -/
def is_valid_right (right : String) : Bool :=
  right == "C" || right == "P"

/-- utils.is_valid_ivl: 100 <= ivl <= 3600000. -/
def is_valid_ivl (ivl : Int) : Bool :=
  100 ≤ ivl && ivl ≤ 3600000

/-- ThetaDataStocksHistorical._is_valid_date_format, a verbatim copy of
utils.is_valid_date_format inside the stocks-historical class. -/
def stocks_is_valid_date_format (date_string : String) : Bool :=
  date_string.length == 8 && date_string.data.all Char.isDigit

/-- The shaped result table: ordered column labels (the raw values of
envelope.header.format) and ordered rows (the raw values of
envelope.response), kept exactly as delivered. -/
structure Table where
  columns : List Json
  rows : List Json

/-- DataFrame cell access df.at[r, c]: row r, at the position of column
label c (a string label matches exactly the equal string column). -/
def Table.cell (t : Table) (r : Nat) (c : String) : Option Json :=
  match t.columns.findIdx? (fun j => j.isStr c) with
  | none => none
  | some i =>
    match t.rows.get? r with
    | some (Json.arr cells) => cells.get? i
    | _ => none

/-- A query-parameter value: a string, a native integer, or a native
float (modelled as a rational). -/
inductive PVal where
  | s : String → PVal
  | i : Int → PVal
  | q : Rat → PVal
deriving DecidableEq

/-- The assembled query-parameter map, in insertion order. -/
abbrev Params := List (String × PVal)

/-- Python str(b).lower() for a bool b. -/
def pyBoolStr (b : Bool) : String :=
  if b then "true" else "false"

/-- A CSV-write event recorded by the shaper: ThetaDataBase._write_csv
invoked with this datatype, identifier and table. -/
structure CsvWrite where
  datatype : String
  identifier : String
  table : Table

/-- ThetaDataBase._process_response.  Returns the Python result
(ValueError/KeyError-style exceptions as .error, DataFrame-or-None as
Option Table) together with the CSV-write events performed.  The Python
code tests the raw decoded response for truthiness; a falsy response
(None, empty dict, empty list) takes the else branch and returns None
with no side effects. -/
def _process_response (response : Option Json) (write_csv : Bool)
    (datatype identifier : String) :
    Except String (Option Table) × List CsvWrite :=
  match response with
  | none => (Except.ok none, [])
  | some j =>
    if j.truthy then
      match (j.getKey "header").bind (fun h => h.getKey "format"),
            j.getKey "response" with
      | some (Json.arr cols), some (Json.arr rows) =>
        let df : Table := ⟨cols, rows⟩
        (Except.ok (some df),
         if write_csv then [⟨datatype, identifier, df⟩] else [])
      | _, _ => (Except.error "KeyError", [])
    else
      (Except.ok none, [])

/-- A file-system state: the set of existing directories and a map from
file path to file content. -/
structure FS where
  dirs : List String
  files : List (String × String)

/-- Content of the file at path p, if it exists. -/
def fsLookup (files : List (String × String)) (p : String) : Option String :=
  files.lookup p

/-- Create or overwrite the file at path p with content c. -/
def fsInsert (p c : String) : List (String × String) → List (String × String)
  | [] => [(p, c)]
  | (q, d) :: rest =>
    if q == p then (p, c) :: rest else (q, d) :: fsInsert p c rest

/-- os.makedirs with exist_ok semantics: create the directory if it does
not already exist. -/
def mkdirIfMissing (dirs : List String) (d : String) : List String :=
  if d ∈ dirs then dirs else d :: dirs

/-- os.path.join for the path shapes the client builds. -/
def ospJoin (a b : String) : String :=
  if b.startsWith "/" then b
  else if a == "" then b
  else if a.endsWith "/" then a ++ b
  else a ++ "/" ++ b

/-- df.to_csv(filepath, index=False): a header line of the column
labels, then one line per row, values written as held. -/
def renderCsv (df : Table) : String :=
  String.intercalate "," (df.columns.map Json.pyStr) ++ "\n" ++
    String.join (df.rows.map (fun r =>
      match r with
      | Json.arr cells => String.intercalate "," (cells.map Json.pyStr) ++ "\n"
      | j => j.pyStr ++ "\n"))

/-- ThetaDataBase._write_csv: ensure the output directory exists
(creating it if missing), then write {datatype}_{identifier}.csv inside
it, replacing any existing file at that path. -/
def _write_csv (fs : FS) (output_dir : String) (df : Table)
    (datatype identifier : String) : FS :=
  let dirs := mkdirIfMissing fs.dirs output_dir
  let filename := datatype ++ "_" ++ identifier ++ ".csv"
  let filepath := ospJoin output_dir filename
  ⟨dirs, fsInsert filepath (renderCsv df) fs.files⟩

/-- The observable outcome of one catalog-entry call: the Python result
(raised exception, or DataFrame-or-None), the transport calls issued
(endpoint and assembled parameter map), and the CSV-write events. -/
structure EntryOutcome where
  result : Except String (Option Table)
  calls : List (String × Params)
  writes : List CsvWrite

/-- A transport oracle standing for ThetaDataBase.send_request: given
the endpoint and parameter map, the decoded JSON body, or none for any
transport-level failure. -/
abbrev Transport := String → Params → Option Json

/-- ThetaDataOptions.get_quote_at_time. -/
def get_quote_at_time (transport : Transport) (root exp : String)
    (strike : Int) (right : String) (start_date end_date : String)
    (ivl : Int) (rth : Bool) (write_csv : Bool) : EntryOutcome :=
  if ! is_valid_right right then
    ⟨Except.error "right must be either 'C' or 'P'", [], []⟩
  else if ! is_valid_ivl ivl then
    ⟨Except.error "ivl must be between 100 and 3600000", [], []⟩
  else
    let endpoint := "/v2/at_time/option/quote"
    let params : Params :=
      [("root", .s root), ("exp", .s exp), ("strike", .i strike),
       ("right", .s right), ("start_date", .s start_date),
       ("end_date", .s end_date), ("ivl", .i ivl),
       ("rth", .s (pyBoolStr rth))]
    let response := transport endpoint params
    let pr := _process_response response write_csv "option_quote"
      (root ++ "_" ++ exp ++ "_" ++ toString strike ++ "_" ++ right)
    ⟨pr.1, [(endpoint, params)], pr.2⟩

/-- Python truthiness of an optional string argument defaulting to None
(if start_time: ...): None and the empty string are falsy. -/
def pyTruthyOptStr : Option String → Bool
  | none => false
  | some s => !s.isEmpty

/-- ThetaDataOptions.get_historical_quotes. -/
def get_historical_quotes (transport : Transport) (root exp : String)
    (strike : Int) (right : String) (start_date end_date : String)
    (ivl : Int) (rth : Bool) (start_time end_time : Option String)
    (write_csv : Bool) : EntryOutcome :=
  if ! is_valid_right right then
    ⟨Except.error "right must be either 'C' or 'P'", [], []⟩
  else if ivl != 0 && ! is_valid_ivl ivl then
    ⟨Except.error "ivl must be between 100 and 3600000", [], []⟩
  else
    let endpoint := "/v2/hist/option/quote"
    let params0 : Params :=
      [("root", .s root), ("exp", .s exp), ("strike", .i strike),
       ("right", .s right), ("start_date", .s start_date),
       ("end_date", .s end_date), ("ivl", .i ivl),
       ("rth", .s (pyBoolStr rth))]
    let params1 := match start_time with
      | some s => if !s.isEmpty then params0 ++ [("start_time", .s s)] else params0
      | none => params0
    let params := match end_time with
      | some s => if !s.isEmpty then params1 ++ [("end_time", .s s)] else params1
      | none => params1
    let response := transport endpoint params
    let pr := _process_response response write_csv "historical_quotes"
      (root ++ "_" ++ exp ++ "_" ++ toString strike ++ "_" ++ right)
    ⟨pr.1, [(endpoint, params)], pr.2⟩

/-- The shared body of the four historical-greeks endpoints, which are
verbatim copies of one another up to endpoint path and datatype label:
validate right, validate ivl only when it is nonzero, assemble the
parameter map (ivl passed through as given, booleans lowercased),
request, shape. -/
def greeksEntry (endpoint datatype : String) (transport : Transport)
    (root exp : String) (strike : Int) (right : String)
    (start_date end_date : String) (ivl : Int) (rth use_csv : Bool)
    (write_csv : Bool) : EntryOutcome :=
  if ! is_valid_right right then
    ⟨Except.error "right must be either 'C' or 'P'", [], []⟩
  else if ivl != 0 && ! is_valid_ivl ivl then
    ⟨Except.error "ivl must be between 100 and 3600000", [], []⟩
  else
    let params : Params :=
      [("root", .s root), ("exp", .s exp), ("strike", .i strike),
       ("right", .s right), ("start_date", .s start_date),
       ("end_date", .s end_date), ("ivl", .i ivl),
       ("rth", .s (pyBoolStr rth)), ("use_csv", .s (pyBoolStr use_csv))]
    let response := transport endpoint params
    let pr := _process_response response write_csv datatype
      (root ++ "_" ++ exp ++ "_" ++ toString strike ++ "_" ++ right)
    ⟨pr.1, [(endpoint, params)], pr.2⟩

/-- ThetaDataOptions.get_historical_greeks. -/
def get_historical_greeks : Transport → String → String → Int → String →
    String → String → Int → Bool → Bool → Bool → EntryOutcome :=
  greeksEntry "/v2/hist/option/greeks" "historical_greeks"

/-- ThetaDataOptions.get_historical_greeks_second_order. -/
def get_historical_greeks_second_order : Transport → String → String →
    Int → String → String → String → Int → Bool → Bool → Bool →
    EntryOutcome :=
  greeksEntry "/v2/hist/option/greeks_second_order"
    "historical_greeks_second_order"

/-- ThetaDataOptions.get_historical_greeks_third_order. -/
def get_historical_greeks_third_order : Transport → String → String →
    Int → String → String → String → Int → Bool → Bool → Bool →
    EntryOutcome :=
  greeksEntry "/v2/hist/option/greeks_third_order"
    "historical_greeks_third_order"

/-- ThetaDataOptions.get_historical_all_greeks. -/
def get_historical_all_greeks : Transport → String → String → Int →
    String → String → String → Int → Bool → Bool → Bool → EntryOutcome :=
  greeksEntry "/v2/hist/option/all_greeks" "historical_all_greeks"

/-- ThetaDataOptions.get_bulk_eod: no validation; rate_value and
under_price are added to the map only when not None. -/
def get_bulk_eod (transport : Transport) (root exp : String)
    (start_date end_date : String) (annual_div : Rat) (rate : String)
    (rate_value under_price : Option Rat) (use_csv write_csv : Bool) :
    EntryOutcome :=
  let endpoint := "/v2/bulk_hist/option/eod"
  let params0 : Params :=
    [("root", .s root), ("exp", .s exp), ("start_date", .s start_date),
     ("end_date", .s end_date), ("annual_div", .q annual_div),
     ("rate", .s rate), ("use_csv", .s (pyBoolStr use_csv))]
  let params1 := match rate_value with
    | some v => params0 ++ [("rate_value", .q v)]
    | none => params0
  let params := match under_price with
    | some v => params1 ++ [("under_price", .q v)]
    | none => params1
  let response := transport endpoint params
  let pr := _process_response response write_csv "bulk_option_eod"
    (root ++ "_" ++ exp)
  ⟨pr.1, [(endpoint, params)], pr.2⟩

/-- The outcome of a ThetaDataStocksHistorical call, whose Python
return type is DataFrame | dict | None: inl a shaped table (use_df path)
or inr the raw decoded response returned unchanged. -/
structure StocksOutcome where
  result : Except String (Option (Table ⊕ Json))
  calls : List (String × Params)

/-- ThetaDataStocksHistorical.get_eod_report: soft-fails on a bad date
format (returns None without calling the transport); otherwise requests
/v2/hist/stock/eod, and shapes to a table only when the response is
truthy and use_df is set, else returns the raw response unchanged. -/
def get_eod_report (use_df : Bool) (transport : Transport)
    (symbol start_date end_date : String) : StocksOutcome :=
  if !(stocks_is_valid_date_format start_date
       && stocks_is_valid_date_format end_date) then
    ⟨Except.ok none, []⟩
  else
    let endpoint := "/v2/hist/stock/eod"
    let params : Params :=
      [("root", .s symbol), ("start_date", .s start_date),
       ("end_date", .s end_date)]
    let response := transport endpoint params
    let res : Except String (Option (Table ⊕ Json)) :=
      match response with
      | none => Except.ok none
      | some j =>
        if j.truthy && use_df then
          match (j.getKey "header").bind (fun h => h.getKey "format"),
                j.getKey "response" with
          | some (Json.arr cols), some (Json.arr rows) =>
            Except.ok (some (Sum.inl ⟨cols, rows⟩))
          | _, _ => Except.error "KeyError"
        else Except.ok (some (Sum.inr j))
    ⟨res, [(endpoint, params)]⟩

/-- State of the stream_trades_to_csv consumer process: the file system
it appends to and the per-root download_stats counters. -/
structure StreamState where
  fs : FS
  download_stats : List (String × Nat)

/-- defaultdict(int) increment: download_stats[root] += 1. -/
def bumpStat (root : String) : List (String × Nat) → List (String × Nat)
  | [] => [(root, 1)]
  | (k, n) :: rest =>
    if k == root then (k, n + 1) :: rest else (k, n) :: bumpStat root rest

/-- Python dict lookup lifted into Except: the value, or a KeyError. -/
def need (o : Option Json) : Except String Json :=
  match o with
  | some j => Except.ok j
  | none => Except.error "KeyError"

/-- The fixed stock-trade CSV header line of stream_trades_to_csv. -/
def stockTradeHeader : String :=
  "date,ms_of_day,sequence,size,condition,price,exchange\n"

/-- The fixed option-trade CSV header line of stream_trades_to_csv. -/
def optionTradeHeader : String :=
  "date,ms_of_day,sequence,size,condition,price,exchange,expiration,strike,right\n"

/-- stream_trades_to_csv.create_subfolder_and_header: picks the
subfolder (os.path.join renders as trades/options or trades/stocks) and
header for the contract's security type, creating the subfolder
(exist_ok); unsupported security types yield none with no effect. -/
def create_subfolder_and_header (contract : Json) (fs : FS) :
    Except String (Option (String × String) × FS) := do
  let st ← need (contract.getKey "security_type")
  if st.isStr "OPTION" then
    return (some ("trades/options", optionTradeHeader),
      ⟨mkdirIfMissing fs.dirs "trades/options", fs.files⟩)
  else if st.isStr "STOCK" then
    return (some ("trades/stocks", stockTradeHeader),
      ⟨mkdirIfMissing fs.dirs "trades/stocks", fs.files⟩)
  else
    return (none, fs)

/-- stream_trades_to_csv.format_trade_data: one CSV line in the chosen
header's column order, f-string fields rendered with str(); none for an
unsupported security type. -/
def format_trade_data (trade contract : Json) :
    Except String (Option String) := do
  let st ← need (contract.getKey "security_type")
  if st.isStr "OPTION" then
    let d ← need (trade.getKey "date")
    let m ← need (trade.getKey "ms_of_day")
    let sq ← need (trade.getKey "sequence")
    let sz ← need (trade.getKey "size")
    let c ← need (trade.getKey "condition")
    let p ← need (trade.getKey "price")
    let e ← need (trade.getKey "exchange")
    let ex ← need (contract.getKey "expiration")
    let k ← need (contract.getKey "strike")
    let r ← need (contract.getKey "right")
    return some (d.pyStr ++ "," ++ m.pyStr ++ "," ++ sq.pyStr ++ ","
      ++ sz.pyStr ++ "," ++ c.pyStr ++ "," ++ p.pyStr ++ "," ++ e.pyStr
      ++ "," ++ ex.pyStr ++ "," ++ k.pyStr ++ "," ++ r.pyStr ++ "\n")
  else if st.isStr "STOCK" then
    let d ← need (trade.getKey "date")
    let m ← need (trade.getKey "ms_of_day")
    let sq ← need (trade.getKey "sequence")
    let sz ← need (trade.getKey "size")
    let c ← need (trade.getKey "condition")
    let p ← need (trade.getKey "price")
    let e ← need (trade.getKey "exchange")
    return some (d.pyStr ++ "," ++ m.pyStr ++ "," ++ sq.pyStr ++ ","
      ++ sz.pyStr ++ "," ++ c.pyStr ++ "," ++ p.pyStr ++ "," ++ e.pyStr
      ++ "\n")
  else
    return none

/-- stream_trades_to_csv.write_to_file: if the file does not exist,
create it holding the header; then append the data line. -/
def write_to_file (fs : FS) (file_name header data : String) : FS :=
  let files1 :=
    match fsLookup fs.files file_name with
    | none => fsInsert file_name header fs.files
    | some _ => fs.files
  let content :=
    match fsLookup files1 file_name with
    | none => data
    | some old => old ++ data
  ⟨fs.dirs, fsInsert file_name content files1⟩

/-- stream_trades_to_csv.handle_response: parse, discard non-TRADE
messages, classify by security type, format and append one line to
{subfolder}/{root}.csv, bump the per-root counter.  Python KeyError
propagation is the .error case.  update_progress only prints, so it has
no effect on this state. -/
def handle_response (msg : Json) (st : StreamState) :
    Except String StreamState := do
  let hd ← need (msg.getKey "header")
  let ty ← need (hd.getKey "type")
  if ! ty.isStr "TRADE" then
    return st
  let contract ← need (msg.getKey "contract")
  let trade ← need (msg.getKey "trade")
  let sub ← create_subfolder_and_header contract st.fs
  match sub.1 with
  | none => return { st with fs := sub.2 }
  | some sh =>
    let data ← format_trade_data trade contract
    match data with
    | none => return { st with fs := sub.2 }
    | some line =>
      let rootJ ← need (contract.getKey "root")
      let file_name := sh.1 ++ "/" ++ rootJ.pyStr ++ ".csv"
      let fs2 := write_to_file sub.2 file_name sh.2 line
      return ⟨fs2, bumpStat rootJ.pyStr st.download_stats⟩

/-! Helper lemmas about the file-system map. -/

theorem fsLookup_fsInsert_self (p c : String)
    (files : List (String × String)) :
    fsLookup (fsInsert p c files) p = some c := by
  induction files with
  | nil => simp [fsInsert, fsLookup, List.lookup]
  | cons hd tl ih =>
    obtain ⟨q, d⟩ := hd
    by_cases h : q = p
    · subst h; simp [fsInsert, fsLookup, List.lookup]
    · have hb1 : (q == p) = false := beq_eq_false_iff_ne.mpr h
      have hb2 : (p == q) = false := beq_eq_false_iff_ne.mpr (Ne.symm h)
      simpa [fsInsert, fsLookup, List.lookup, hb1, hb2] using ih

theorem fsInsert_fsInsert (p c c2 : String)
    (files : List (String × String)) :
    fsInsert p c (fsInsert p c2 files) = fsInsert p c files := by
  induction files with
  | nil => simp [fsInsert]
  | cons hd tl ih =>
    obtain ⟨q, d⟩ := hd
    by_cases h : q = p
    · subst h; simp [fsInsert]
    · have hb : (q == p) = false := beq_eq_false_iff_ne.mpr h
      simp [fsInsert, hb, ih]

theorem mem_mkdirIfMissing (dirs : List String) (d : String) :
    d ∈ mkdirIfMissing dirs d := by
  unfold mkdirIfMissing
  split
  · assumption
  · exact List.mem_cons_self d dirs

theorem mkdirIfMissing_idem (dirs : List String) (d : String) :
    mkdirIfMissing (mkdirIfMissing dirs d) d = mkdirIfMissing dirs d := by
  have h := mem_mkdirIfMissing dirs d
  unfold mkdirIfMissing at h ⊢
  simp [h]

theorem truthy_of_getKey (j : Json) (k : String) (v : Json)
    (h : j.getKey k = some v) : j.truthy = true := by
  cases j with
  | obj l =>
    cases l with
    | nil => simp [Json.getKey, List.lookup] at h
    | cons p tl => simp [Json.truthy]
  | arr l => simp [Json.getKey] at h
  | str s => simp [Json.getKey] at h
  | int n => simp [Json.getKey] at h
  | bool b => simp [Json.getKey] at h
  | null => simp [Json.getKey] at h

theorem lookup_append (k : String) (l1 l2 : Params) :
    (l1 ++ l2).lookup k =
      match l1.lookup k with
      | some v => some v
      | none => l2.lookup k := by
  induction l1 with
  | nil => simp [List.lookup]
  | cons hd tl ih =>
    obtain ⟨q, v⟩ := hd
    by_cases h : k = q
    · subst h; simp [List.lookup]
    · have hb : (k == q) = false := beq_eq_false_iff_ne.mpr h
      simp [List.lookup, hb, ih]

end ThetaData

namespace ThetaData

/-- C7: the date validator returns true for a string iff the string has
exactly 8 characters and every character is a decimal digit; the
stocks-historical private copy agrees with the utils validator; calendar
validity is not part of the predicate. -/
theorem C7_date_validator_spec (s : String) :
    (is_valid_date_format s = true ↔
      s.length = 8 ∧ ∀ c ∈ s.data, c.isDigit = true) ∧
    stocks_is_valid_date_format s = is_valid_date_format s := by
  constructor
  · simp [is_valid_date_format, List.all_eq_true]
  · rfl

/-- C7 witness: 20240101 validates; a hyphenated date and a 6-character
date do not; a calendar-invalid month-13 date still validates. -/
theorem C7_date_validator_witness :
    is_valid_date_format "20240101" = true ∧
    is_valid_date_format "2024-01-01" = false ∧
    is_valid_date_format "202401" = false ∧
    is_valid_date_format "20241301" = true :=
  ⟨(C7_date_validator_spec "20240101").1.mpr (by decide), by decide,
   by decide, (C7_date_validator_spec "20241301").1.mpr (by decide)⟩

/-- C6: the CSV sink writes {category}_{identifier}.csv inside the
output directory (whose creation is idempotent: a second identical call
changes nothing) and overwrites: the resulting content is the rendered
table regardless of what was previously at that path. -/
theorem C6_csv_sink_spec (fs : FS) (output_dir datatype identifier : String)
    (df : Table) :
    output_dir ∈ (_write_csv fs output_dir df datatype identifier).dirs ∧
    fsLookup (_write_csv fs output_dir df datatype identifier).files
      (ospJoin output_dir (datatype ++ "_" ++ identifier ++ ".csv")) =
      some (renderCsv df) ∧
    _write_csv (_write_csv fs output_dir df datatype identifier)
        output_dir df datatype identifier =
      _write_csv fs output_dir df datatype identifier := by
  refine ⟨mem_mkdirIfMissing _ _, fsLookup_fsInsert_self _ _ _, ?_⟩
  simp [_write_csv, mkdirIfMissing_idem, fsInsert_fsInsert]

/-- C3: on a well-formed envelope the shaper produces exactly
header.format as columns and response as rows, values untouched, the
CSV side effect happening only when requested, and the table returned
either way. -/
theorem C3_shaper_spec (j hd : Json) (cols rows : List Json) (wc : Bool)
    (datatype identifier : String)
    (h1 : j.getKey "header" = some hd)
    (h2 : hd.getKey "format" = some (Json.arr cols))
    (h3 : j.getKey "response" = some (Json.arr rows)) :
    _process_response (some j) wc datatype identifier =
      (Except.ok (some ⟨cols, rows⟩),
       if wc then [⟨datatype, identifier, ⟨cols, rows⟩⟩] else []) := by
  have ht := truthy_of_getKey j "header" hd h1
  simp [_process_response, ht, h1, h2, h3]

/-- C3 witness: the documented envelope shapes to a one-row table with
columns date and open and the string 100.0 preserved at row 0, column
open. -/
theorem C3_shaper_witness :
    _process_response (some (Json.obj
        [("header", Json.obj
           [("format", Json.arr [Json.str "date", Json.str "open"])]),
         ("response", Json.arr
           [Json.arr [Json.str "20240101", Json.str "100.0"]])]))
        true "eod" "AAPL_20240101_20240131" =
      (Except.ok (some ⟨[Json.str "date", Json.str "open"],
         [Json.arr [Json.str "20240101", Json.str "100.0"]]⟩),
       [⟨"eod", "AAPL_20240101_20240131",
         ⟨[Json.str "date", Json.str "open"],
          [Json.arr [Json.str "20240101", Json.str "100.0"]]⟩⟩]) ∧
    Table.cell ⟨[Json.str "date", Json.str "open"],
        [Json.arr [Json.str "20240101", Json.str "100.0"]]⟩ 0 "open" =
      some (Json.str "100.0") ∧
    ([Json.arr [Json.str "20240101", Json.str "100.0"]] : List Json).length
      = 1 :=
  ⟨C3_shaper_spec _ _ _ _ _ _ _ rfl rfl rfl, rfl, rfl⟩

end ThetaData

namespace ThetaData

/-- C1: on the catalog entries, an option right other than exactly C or
P, or an interval outside [100, 3600000] where the interval is
validated, raises a descriptive ValueError naming the constraint with
no transport call and no CSV write; a date string that fails the format
check yields None with no transport call and no exception. -/
theorem C1_validation_asymmetry (T : Transport) (root exp : String)
    (strike : Int) (right : String) (start_date end_date : String)
    (ivl : Int) (rth use_csv write_csv use_df : Bool)
    (endpoint datatype symbol : String) :
    (is_valid_right right = false →
      get_quote_at_time T root exp strike right start_date end_date ivl
          rth write_csv =
        ⟨Except.error "right must be either 'C' or 'P'", [], []⟩ ∧
      greeksEntry endpoint datatype T root exp strike right start_date
          end_date ivl rth use_csv write_csv =
        ⟨Except.error "right must be either 'C' or 'P'", [], []⟩) ∧
    (is_valid_right right = true → is_valid_ivl ivl = false →
      get_quote_at_time T root exp strike right start_date end_date ivl
          rth write_csv =
        ⟨Except.error "ivl must be between 100 and 3600000", [], []⟩) ∧
    (stocks_is_valid_date_format start_date = false ∨
        stocks_is_valid_date_format end_date = false →
      get_eod_report use_df T symbol start_date end_date =
        ⟨Except.ok none, []⟩) := by
  refine ⟨fun h => ⟨?_, ?_⟩, fun h1 h2 => ?_, fun h => ?_⟩
  · simp [get_quote_at_time, h]
  · simp [greeksEntry, h]
  · simp [get_quote_at_time, h1, h2]
  · rcases h with h | h <;> simp [get_eod_report, h]

/-- C1 witness: right X raises the right error, interval 99 raises the
interval error (both with no transport call), and a hyphenated date
yields None with no transport call. -/
theorem C1_validation_witness :
    get_quote_at_time (fun _ _ => none) "AAPL" "20240119" 170000 "X"
        "20240101" "20240131" 900000 true false =
      ⟨Except.error "right must be either 'C' or 'P'", [], []⟩ ∧
    get_quote_at_time (fun _ _ => none) "AAPL" "20240119" 170000 "C"
        "20240101" "20240131" 99 true false =
      ⟨Except.error "ivl must be between 100 and 3600000", [], []⟩ ∧
    get_eod_report true (fun _ _ => none) "AAPL" "2024-01-01" "20240131" =
      ⟨Except.ok none, []⟩ :=
  ⟨((C1_validation_asymmetry (fun _ _ => none) "AAPL" "20240119" 170000
      "X" "20240101" "20240131" 900000 true false false true
      "/v2/hist/option/greeks" "historical_greeks" "AAPL").1
      (by decide)).1,
   (C1_validation_asymmetry (fun _ _ => none) "AAPL" "20240119" 170000
      "C" "20240101" "20240131" 99 true false false true
      "/v2/hist/option/greeks" "historical_greeks" "AAPL").2.1
      (by decide) (by decide),
   (C1_validation_asymmetry (fun _ _ => none) "AAPL" "20240119" 170000
      "C" "2024-01-01" "20240131" 900000 true false false true
      "/v2/hist/option/greeks" "historical_greeks" "AAPL").2.2
      (Or.inl (by decide))⟩

/-- C2: with a transport that returns absent, every embedded catalog
entry returns absent and performs no CSV write even with write_csv set,
and the shaper itself has no side effects on absent input. -/
theorem C2_absent_propagation (T : Transport)
    (hT : ∀ en p, T en p = none) (root exp : String) (strike : Int)
    (right : String) (start_date end_date : String) (ivl : Int)
    (rth : Bool) (start_time end_time : Option String)
    (annual_div : Rat) (rate : String)
    (rate_value under_price : Option Rat) (use_csv use_df : Bool)
    (symbol datatype identifier endpoint : String)
    (hr : is_valid_right right = true) (hi : is_valid_ivl ivl = true)
    (hsd : stocks_is_valid_date_format start_date = true)
    (hed : stocks_is_valid_date_format end_date = true) :
    _process_response none true datatype identifier =
      (Except.ok none, []) ∧
    (get_quote_at_time T root exp strike right start_date end_date ivl
      rth true).result = Except.ok none ∧
    (get_quote_at_time T root exp strike right start_date end_date ivl
      rth true).writes = [] ∧
    (get_historical_quotes T root exp strike right start_date end_date
      ivl rth start_time end_time true).result = Except.ok none ∧
    (get_historical_quotes T root exp strike right start_date end_date
      ivl rth start_time end_time true).writes = [] ∧
    (greeksEntry endpoint datatype T root exp strike right start_date
      end_date ivl rth use_csv true).result = Except.ok none ∧
    (greeksEntry endpoint datatype T root exp strike right start_date
      end_date ivl rth use_csv true).writes = [] ∧
    (get_bulk_eod T root exp start_date end_date annual_div rate
      rate_value under_price use_csv true).result = Except.ok none ∧
    (get_bulk_eod T root exp start_date end_date annual_div rate
      rate_value under_price use_csv true).writes = [] ∧
    (get_eod_report use_df T symbol start_date end_date).result =
      Except.ok none := by
  refine ⟨rfl, ?_, ?_, ?_, ?_, ?_, ?_, ?_, ?_, ?_⟩ <;>
    simp [get_quote_at_time, get_historical_quotes, greeksEntry,
      get_bulk_eod, get_eod_report, hr, hi, hT, hsd, hed,
      _process_response]

/-- C2 witness: a concrete always-absent transport, an at-time quote
call with CSV requested, and an EOD-report call all yield absent with
no CSV write. -/
theorem C2_absent_witness :
    (get_quote_at_time (fun _ _ => none) "AAPL" "20240119" 170000 "C"
      "20240101" "20240131" 900000 true true).result = Except.ok none ∧
    (get_quote_at_time (fun _ _ => none) "AAPL" "20240119" 170000 "C"
      "20240101" "20240131" 900000 true true).writes = [] ∧
    (get_eod_report true (fun _ _ => none) "AAPL" "20240101"
      "20240131").result = Except.ok none := by
  have h := C2_absent_propagation (fun _ _ => none) (fun _ _ => rfl)
    "AAPL" "20240119" 170000 "C" "20240101" "20240131" 900000 true
    none none 0 "SOFR" none none false true "AAPL" "dt" "id"
    "/v2/hist/option/greeks" (by decide) (by decide) (by decide)
    (by decide)
  exact ⟨h.2.1, h.2.2.1, h.2.2.2.2.2.2.2.2.2⟩

end ThetaData

namespace ThetaData

/-- C10 counterexample: with a transport delivering the empty object,
get_eod_report (use_df) returns the raw empty dict, while a failed
request returns None — the two are distinguishable at the public
interface, contradicting the claim that any falsy decoded response is
treated identically to a transport failure with an absent result. -/
theorem C10_falsy_counterexample :
    (get_eod_report true (fun _ _ => some (Json.obj [])) "AAPL"
      "20240101" "20240131").result =
      Except.ok (some (Sum.inr (Json.obj []))) ∧
    (get_eod_report true (fun _ _ => none) "AAPL" "20240101"
      "20240131").result = Except.ok none ∧
    Except.ok (some (Sum.inr (Json.obj []))) ≠
      (Except.ok none : Except String (Option (Table ⊕ Json))) := by
  refine ⟨rfl, rfl, by simp⟩

/-- C10 amended: in the base shaper (_process_response) a falsy decoded
response is treated exactly like a transport failure — None result, no
CSV write, and a catalog entry built on it is observably identical under
a falsy-envelope transport and an absent transport; but the
stocks-historical class returns a falsy-but-present response raw (an
empty dict comes back as the empty dict, not None). -/
theorem C10_falsy_response_spec (j : Json) (hj : j.truthy = false)
    (T1 T2 : Transport) (h1 : ∀ en p, T1 en p = some j)
    (h2 : ∀ en p, T2 en p = none) (root exp : String) (strike : Int)
    (right : String) (start_date end_date : String) (ivl : Int)
    (rth wc : Bool) (datatype identifier symbol : String)
    (use_df : Bool) (hr : is_valid_right right = true)
    (hi : is_valid_ivl ivl = true)
    (hsd : stocks_is_valid_date_format start_date = true)
    (hed : stocks_is_valid_date_format end_date = true) :
    _process_response (some j) wc datatype identifier =
      (Except.ok none, []) ∧
    _process_response (some j) wc datatype identifier =
      _process_response none wc datatype identifier ∧
    get_quote_at_time T1 root exp strike right start_date end_date ivl
        rth wc =
      get_quote_at_time T2 root exp strike right start_date end_date ivl
        rth wc ∧
    (get_eod_report use_df T1 symbol start_date end_date).result =
      Except.ok (some (Sum.inr j)) := by
  refine ⟨?_, ?_, ?_, ?_⟩
  · simp [_process_response, hj]
  · simp [_process_response, hj]
  · simp [get_quote_at_time, hr, hi, h1, h2, _process_response, hj]
  · simp [get_eod_report, hsd, hed, h1, hj]

/-- C10 witness: the empty object and the empty list both shape to an
absent result with no CSV write, and an at-time quote call cannot tell
an empty-object envelope from a failed request. -/
theorem C10_falsy_witness :
    _process_response (some (Json.obj [])) true "eod" "AAPL" =
      (Except.ok none, []) ∧
    _process_response (some (Json.arr [])) true "quotes" "MSFT" =
      (Except.ok none, []) ∧
    get_quote_at_time (fun _ _ => some (Json.obj [])) "AAPL" "20240119"
        170000 "C" "20240101" "20240131" 900000 true true =
      get_quote_at_time (fun _ _ => none) "AAPL" "20240119" 170000 "C"
        "20240101" "20240131" 900000 true true := by
  have ha := C10_falsy_response_spec (Json.obj []) rfl
    (fun _ _ => some (Json.obj [])) (fun _ _ => none) (fun _ _ => rfl)
    (fun _ _ => rfl) "AAPL" "20240119" 170000 "C" "20240101" "20240131"
    900000 true true "eod" "AAPL" "AAPL" true (by decide) (by decide)
    (by decide) (by decide)
  have hb := C10_falsy_response_spec (Json.arr []) rfl
    (fun _ _ => some (Json.arr [])) (fun _ _ => none) (fun _ _ => rfl)
    (fun _ _ => rfl) "MSFT" "20240119" 170000 "C" "20240101" "20240131"
    900000 true true "quotes" "MSFT" "MSFT" true (by decide) (by decide)
    (by decide) (by decide)
  exact ⟨ha.1, hb.1, ha.2.2.1⟩

end ThetaData

namespace ThetaData

/-- C5 counterexample: the caller supplies the non-null empty string as
start_time, yet the assembled parameter map of the one transport call
contains no start_time key — presence is decided by truthiness, not by
being non-null. -/
theorem C5_param_counterexample :
    (some "" ≠ (none : Option String)) ∧
    ((get_historical_quotes (fun _ _ => none) "AAPL" "20240119" 170000
        "C" "20240101" "20240131" 900000 true (some "") none
        false).calls.map (fun c => c.2.lookup "start_time")) =
      [none] := by
  exact ⟨by simp, rfl⟩

/-- C5 amended: required parameters are always present and booleans are
serialized as lowercase true/false strings; optional string parameters
(start_time, end_time) are present iff the supplied value is truthy
(non-null and non-empty), while optional numeric parameters
(rate_value, under_price) are present iff the supplied value is
non-null. -/
theorem C5_param_map_spec (T : Transport) (root exp : String)
    (strike : Int) (right : String) (start_date end_date : String)
    (ivl : Int) (rth : Bool) (start_time end_time : Option String)
    (write_csv : Bool) (annual_div : Rat) (rate : String)
    (rate_value under_price : Option Rat) (use_csv : Bool)
    (hr : is_valid_right right = true)
    (hi : is_valid_ivl ivl = true) :
    (∃ p, (get_historical_quotes T root exp strike right start_date
          end_date ivl rth start_time end_time write_csv).calls =
        [("/v2/hist/option/quote", p)] ∧
      p.lookup "root" = some (PVal.s root) ∧
      p.lookup "exp" = some (PVal.s exp) ∧
      p.lookup "strike" = some (PVal.i strike) ∧
      p.lookup "right" = some (PVal.s right) ∧
      p.lookup "start_date" = some (PVal.s start_date) ∧
      p.lookup "end_date" = some (PVal.s end_date) ∧
      p.lookup "ivl" = some (PVal.i ivl) ∧
      p.lookup "rth" =
        some (PVal.s (if rth then "true" else "false")) ∧
      (p.lookup "start_time").isSome = pyTruthyOptStr start_time ∧
      (p.lookup "end_time").isSome = pyTruthyOptStr end_time) ∧
    (∃ p, (get_bulk_eod T root exp start_date end_date annual_div rate
          rate_value under_price use_csv write_csv).calls =
        [("/v2/bulk_hist/option/eod", p)] ∧
      p.lookup "root" = some (PVal.s root) ∧
      p.lookup "exp" = some (PVal.s exp) ∧
      p.lookup "start_date" = some (PVal.s start_date) ∧
      p.lookup "end_date" = some (PVal.s end_date) ∧
      p.lookup "annual_div" = some (PVal.q annual_div) ∧
      p.lookup "rate" = some (PVal.s rate) ∧
      p.lookup "use_csv" =
        some (PVal.s (if use_csv then "true" else "false")) ∧
      p.lookup "rate_value" = rate_value.map PVal.q ∧
      p.lookup "under_price" = under_price.map PVal.q) := by
  constructor
  · simp only [get_historical_quotes, hr, hi, Bool.not_true,
      Bool.and_false, Bool.false_eq_true, if_false]
    cases start_time with
    | none =>
      cases end_time with
      | none =>
        exact ⟨_, rfl, rfl, rfl, rfl, rfl, rfl, rfl, rfl, rfl, rfl, rfl⟩
      | some t =>
        dsimp only
        cases hE : t.isEmpty with
        | false =>
          simp only [hE, Bool.not_false, if_true]
          exact ⟨_, rfl, rfl, rfl, rfl, rfl, rfl, rfl, rfl, rfl, rfl,
            by simp [pyTruthyOptStr, hE]⟩
        | true =>
          simp only [hE, Bool.not_true, Bool.false_eq_true, if_false]
          exact ⟨_, rfl, rfl, rfl, rfl, rfl, rfl, rfl, rfl, rfl, rfl,
            by simp [pyTruthyOptStr, hE]⟩
    | some s =>
      dsimp only
      cases hS : s.isEmpty with
      | false =>
        simp only [hS, Bool.not_false, if_true]
        cases end_time with
        | none =>
          exact ⟨_, rfl, rfl, rfl, rfl, rfl, rfl, rfl, rfl, rfl,
            by simp [pyTruthyOptStr, hS], rfl⟩
        | some t =>
          dsimp only
          cases hE : t.isEmpty with
          | false =>
            simp only [hE, Bool.not_false, if_true]
            exact ⟨_, rfl, rfl, rfl, rfl, rfl, rfl, rfl, rfl, rfl,
              by simp [pyTruthyOptStr, hS], by simp [pyTruthyOptStr, hE]⟩
          | true =>
            simp only [hE, Bool.not_true, Bool.false_eq_true, if_false]
            exact ⟨_, rfl, rfl, rfl, rfl, rfl, rfl, rfl, rfl, rfl,
              by simp [pyTruthyOptStr, hS], by simp [pyTruthyOptStr, hE]⟩
      | true =>
        simp only [hS, Bool.not_true, Bool.false_eq_true, if_false]
        cases end_time with
        | none =>
          exact ⟨_, rfl, rfl, rfl, rfl, rfl, rfl, rfl, rfl, rfl,
            by simp [pyTruthyOptStr, hS], rfl⟩
        | some t =>
          dsimp only
          cases hE : t.isEmpty with
          | false =>
            simp only [hE, Bool.not_false, if_true]
            exact ⟨_, rfl, rfl, rfl, rfl, rfl, rfl, rfl, rfl, rfl,
              by simp [pyTruthyOptStr, hS], by simp [pyTruthyOptStr, hE]⟩
          | true =>
            simp only [hE, Bool.not_true, Bool.false_eq_true, if_false]
            exact ⟨_, rfl, rfl, rfl, rfl, rfl, rfl, rfl, rfl, rfl,
              by simp [pyTruthyOptStr, hS], by simp [pyTruthyOptStr, hE]⟩
  · simp only [get_bulk_eod]
    cases rate_value with
    | none =>
      cases under_price with
      | none => exact ⟨_, rfl, rfl, rfl, rfl, rfl, rfl, rfl, rfl, rfl, rfl⟩
      | some u => exact ⟨_, rfl, rfl, rfl, rfl, rfl, rfl, rfl, rfl, rfl, rfl⟩
    | some v =>
      cases under_price with
      | none => exact ⟨_, rfl, rfl, rfl, rfl, rfl, rfl, rfl, rfl, rfl, rfl⟩
      | some u => exact ⟨_, rfl, rfl, rfl, rfl, rfl, rfl, rfl, rfl, rfl, rfl⟩

/-- C5 witness: a concrete call with truthy start_time, absent end_time
and a supplied rate_value shows the required keys, the lowercase
booleans and the optional-parameter behaviour on an actual parameter
map. -/
theorem C5_param_map_witness :
    (∃ p, (get_historical_quotes (fun _ _ => none) "AAPL" "20240119"
          170000 "C" "20240101" "20240131" 900000 true
          (some "093000000") none false).calls =
        [("/v2/hist/option/quote", p)] ∧
      p.lookup "root" = some (PVal.s "AAPL") ∧
      p.lookup "exp" = some (PVal.s "20240119") ∧
      p.lookup "strike" = some (PVal.i 170000) ∧
      p.lookup "right" = some (PVal.s "C") ∧
      p.lookup "start_date" = some (PVal.s "20240101") ∧
      p.lookup "end_date" = some (PVal.s "20240131") ∧
      p.lookup "ivl" = some (PVal.i 900000) ∧
      p.lookup "rth" = some (PVal.s (if true then "true" else "false")) ∧
      (p.lookup "start_time").isSome = pyTruthyOptStr (some "093000000") ∧
      (p.lookup "end_time").isSome = pyTruthyOptStr none) ∧
    (∃ p, (get_bulk_eod (fun _ _ => none) "AAPL" "20240119" "20240101"
          "20240131" 0 "SOFR" (some (53 / 1000)) none false
          false).calls = [("/v2/bulk_hist/option/eod", p)] ∧
      p.lookup "root" = some (PVal.s "AAPL") ∧
      p.lookup "exp" = some (PVal.s "20240119") ∧
      p.lookup "start_date" = some (PVal.s "20240101") ∧
      p.lookup "end_date" = some (PVal.s "20240131") ∧
      p.lookup "annual_div" = some (PVal.q 0) ∧
      p.lookup "rate" = some (PVal.s "SOFR") ∧
      p.lookup "use_csv" =
        some (PVal.s (if false then "true" else "false")) ∧
      p.lookup "rate_value" = (some (53 / 1000) : Option Rat).map PVal.q ∧
      p.lookup "under_price" = (none : Option Rat).map PVal.q) :=
  C5_param_map_spec (fun _ _ => none) "AAPL" "20240119" 170000 "C"
    "20240101" "20240131" 900000 true (some "093000000") none false 0
    "SOFR" (some (53 / 1000)) none false (by decide) (by decide)

end ThetaData

namespace ThetaData

/-- C9: on the five tick-level-capable endpoints, ivl = 0 is exempt
from interval validation — the call proceeds to the transport with
ivl = 0 in the parameter map and no ValueError — while any other
out-of-range ivl raises the interval ValueError with no transport
call. -/
theorem C9_ivl_zero_exception (T : Transport)
    (hT : ∀ en p, T en p = none) (root exp : String) (strike : Int)
    (right : String) (start_date end_date : String)
    (rth use_csv write_csv : Bool) (ivl : Int)
    (hr : is_valid_right right = true) (hnz : ivl ≠ 0)
    (hbad : is_valid_ivl ivl = false) :
    ((get_historical_quotes T root exp strike right start_date end_date
        0 rth none none write_csv).result = Except.ok none ∧
      (get_historical_quotes T root exp strike right start_date end_date
        0 rth none none write_csv).calls.map
          (fun c => c.2.lookup "ivl") = [some (PVal.i 0)]) ∧
    ((get_historical_greeks T root exp strike right start_date end_date
        0 rth use_csv write_csv).result = Except.ok none ∧
      (get_historical_greeks T root exp strike right start_date end_date
        0 rth use_csv write_csv).calls.map
          (fun c => c.2.lookup "ivl") = [some (PVal.i 0)]) ∧
    ((get_historical_greeks_second_order T root exp strike right
        start_date end_date 0 rth use_csv write_csv).result =
        Except.ok none ∧
      (get_historical_greeks_second_order T root exp strike right
        start_date end_date 0 rth use_csv write_csv).calls.map
          (fun c => c.2.lookup "ivl") = [some (PVal.i 0)]) ∧
    ((get_historical_greeks_third_order T root exp strike right
        start_date end_date 0 rth use_csv write_csv).result =
        Except.ok none ∧
      (get_historical_greeks_third_order T root exp strike right
        start_date end_date 0 rth use_csv write_csv).calls.map
          (fun c => c.2.lookup "ivl") = [some (PVal.i 0)]) ∧
    ((get_historical_all_greeks T root exp strike right start_date
        end_date 0 rth use_csv write_csv).result = Except.ok none ∧
      (get_historical_all_greeks T root exp strike right start_date
        end_date 0 rth use_csv write_csv).calls.map
          (fun c => c.2.lookup "ivl") = [some (PVal.i 0)]) ∧
    get_historical_quotes T root exp strike right start_date end_date
        ivl rth none none write_csv =
      ⟨Except.error "ivl must be between 100 and 3600000", [], []⟩ ∧
    get_historical_greeks T root exp strike right start_date end_date
        ivl rth use_csv write_csv =
      ⟨Except.error "ivl must be between 100 and 3600000", [], []⟩ ∧
    get_historical_greeks_second_order T root exp strike right
        start_date end_date ivl rth use_csv write_csv =
      ⟨Except.error "ivl must be between 100 and 3600000", [], []⟩ ∧
    get_historical_greeks_third_order T root exp strike right start_date
        end_date ivl rth use_csv write_csv =
      ⟨Except.error "ivl must be between 100 and 3600000", [], []⟩ ∧
    get_historical_all_greeks T root exp strike right start_date
        end_date ivl rth use_csv write_csv =
      ⟨Except.error "ivl must be between 100 and 3600000", [], []⟩ := by
  have hb : (ivl != 0) = true := by simp [hnz]
  refine ⟨⟨?_, ?_⟩, ⟨?_, ?_⟩, ⟨?_, ?_⟩, ⟨?_, ?_⟩, ⟨?_, ?_⟩,
    ?_, ?_, ?_, ?_, ?_⟩ <;>
    simp [get_historical_quotes, get_historical_greeks,
      get_historical_greeks_second_order,
      get_historical_greeks_third_order, get_historical_all_greeks,
      greeksEntry, hr, hb, hbad, hT, _process_response, List.lookup]

/-- C9 witness: with ivl 0 the historical-quotes and historical-greeks
calls reach the transport carrying ivl 0, and with ivl 99 they raise
the interval error without any transport call. -/
theorem C9_ivl_zero_witness :
    (get_historical_quotes (fun _ _ => none) "AAPL" "20240119" 170000
      "C" "20240101" "20240131" 0 true none none false).result =
      Except.ok none ∧
    (get_historical_quotes (fun _ _ => none) "AAPL" "20240119" 170000
      "C" "20240101" "20240131" 0 true none none false).calls.map
        (fun c => c.2.lookup "ivl") = [some (PVal.i 0)] ∧
    get_historical_greeks (fun _ _ => none) "AAPL" "20240119" 170000
        "C" "20240101" "20240131" 99 true false false =
      ⟨Except.error "ivl must be between 100 and 3600000", [], []⟩ := by
  have h := C9_ivl_zero_exception (fun _ _ => none) (fun _ _ => rfl)
    "AAPL" "20240119" 170000 "C" "20240101" "20240131" true false false
    99 (by decide) (by decide) (by decide)
  exact ⟨h.1.1, h.1.2, h.2.2.2.2.2.2.1⟩

end ThetaData

namespace ThetaData

theorem except_bind_ok {α β : Type} (a : α) (f : α → Except String β) :
    (Except.ok a : Except String α) >>= f = f a := rfl

/-- C4: a TRADE message for a STOCK contract with root R appends exactly
one data line (date, ms_of_day, sequence, size, condition, price,
exchange, in that order) to trades/stocks/R.csv, the fixed stock-trade
header being written first exactly when the file did not yet exist, and
bumps the per-root counter. -/
theorem C4_stock_trade_append (msg hdr contract trade : Json)
    (R : String) (d m sq sz c p e : Json) (st : StreamState)
    (h1 : msg.getKey "header" = some hdr)
    (h2 : hdr.getKey "type" = some (Json.str "TRADE"))
    (h3 : msg.getKey "contract" = some contract)
    (h4 : msg.getKey "trade" = some trade)
    (h5 : contract.getKey "security_type" = some (Json.str "STOCK"))
    (h6 : contract.getKey "root" = some (Json.str R))
    (t1 : trade.getKey "date" = some d)
    (t2 : trade.getKey "ms_of_day" = some m)
    (t3 : trade.getKey "sequence" = some sq)
    (t4 : trade.getKey "size" = some sz)
    (t5 : trade.getKey "condition" = some c)
    (t6 : trade.getKey "price" = some p)
    (t7 : trade.getKey "exchange" = some e) :
    handle_response msg st = Except.ok
      ⟨⟨mkdirIfMissing st.fs.dirs "trades/stocks",
        fsInsert ("trades/stocks/" ++ R ++ ".csv")
          ((fsLookup st.fs.files
              ("trades/stocks/" ++ R ++ ".csv")).getD stockTradeHeader
            ++ (d.pyStr ++ "," ++ m.pyStr ++ "," ++ sq.pyStr ++ ","
              ++ sz.pyStr ++ "," ++ c.pyStr ++ "," ++ p.pyStr ++ ","
              ++ e.pyStr ++ "\n"))
          st.fs.files⟩,
       bumpStat R st.download_stats⟩ := by
  simp only [handle_response, h1, h2, h3, h4, need, except_bind_ok,
    Json.isStr, beq_self_eq_true, Bool.not_true, Bool.false_eq_true,
    if_false, create_subfolder_and_header, h5, format_trade_data,
    t1, t2, t3, t4, t5, t6, t7, h6, Json.pyStr]
  cases hcase : fsLookup st.fs.files ("trades/stocks/" ++ R ++ ".csv") with
  | none =>
    simp [write_to_file, hcase, fsLookup_fsInsert_self, fsInsert_fsInsert]
    rfl
  | some old =>
    simp [write_to_file, hcase]
    rfl

/-- C8: a message whose declared type is not the subscribed TRADE
class, or whose contract has an unknown security type, leaves the file
system and all counters unchanged and raises nothing. -/
theorem C8_discard_spec (msg : Json) (st : StreamState) (hdr ty : Json)
    (h1 : msg.getKey "header" = some hdr)
    (h2 : hdr.getKey "type" = some ty)
    (hcase : ty.isStr "TRADE" = false ∨
      (ty = Json.str "TRADE" ∧ ∃ contract trade sec,
        msg.getKey "contract" = some contract ∧
        msg.getKey "trade" = some trade ∧
        contract.getKey "security_type" = some sec ∧
        sec.isStr "STOCK" = false ∧ sec.isStr "OPTION" = false)) :
    handle_response msg st = Except.ok st := by
  rcases hcase with hty | ⟨hty, contract, trade, sec, h3, h4, h5, hs, ho⟩
  · simp [handle_response, h1, h2, need, except_bind_ok, hty]
    rfl
  · subst hty
    simp [handle_response, h1, h2, h3, h4, need, except_bind_ok,
      create_subfolder_and_header, h5, hs, ho]

end ThetaData

namespace ThetaData

/-- C4 witness: a concrete TSLA stock trade on an empty file system
creates trades/stocks/TSLA.csv holding the 7-field header followed by
exactly one data line, and sets the TSLA counter to 1. -/
theorem C4_stock_trade_witness :
    handle_response (Json.obj
        [("header", Json.obj [("type", Json.str "TRADE")]),
         ("contract", Json.obj
           [("security_type", Json.str "STOCK"),
            ("root", Json.str "TSLA")]),
         ("trade", Json.obj
           [("date", Json.int 20240102),
            ("ms_of_day", Json.int 34200000),
            ("sequence", Json.int 7), ("size", Json.int 100),
            ("condition", Json.int 0), ("price", Json.int 24210),
            ("exchange", Json.int 1)])])
      ⟨⟨[], []⟩, []⟩ =
    Except.ok ⟨⟨["trades/stocks"],
      [("trades/stocks/TSLA.csv",
        "date,ms_of_day,sequence,size,condition,price,exchange\n20240102,34200000,7,100,0,24210,1\n")]⟩,
      [("TSLA", 1)]⟩ := by
  have h := C4_stock_trade_append
    (Json.obj
      [("header", Json.obj [("type", Json.str "TRADE")]),
       ("contract", Json.obj
         [("security_type", Json.str "STOCK"),
          ("root", Json.str "TSLA")]),
       ("trade", Json.obj
         [("date", Json.int 20240102),
          ("ms_of_day", Json.int 34200000),
          ("sequence", Json.int 7), ("size", Json.int 100),
          ("condition", Json.int 0), ("price", Json.int 24210),
          ("exchange", Json.int 1)])])
    (Json.obj [("type", Json.str "TRADE")])
    (Json.obj [("security_type", Json.str "STOCK"),
      ("root", Json.str "TSLA")])
    (Json.obj [("date", Json.int 20240102),
      ("ms_of_day", Json.int 34200000), ("sequence", Json.int 7),
      ("size", Json.int 100), ("condition", Json.int 0),
      ("price", Json.int 24210), ("exchange", Json.int 1)])
    "TSLA" (Json.int 20240102) (Json.int 34200000) (Json.int 7)
    (Json.int 100) (Json.int 0) (Json.int 24210) (Json.int 1)
    ⟨⟨[], []⟩, []⟩ rfl rfl rfl rfl rfl rfl rfl rfl rfl rfl rfl rfl rfl
  exact h

/-- C8 witness: a QUOTE message while subscribed to TRADE, and a TRADE
message with an unknown FUTURE security type, both leave an empty
stream state untouched. -/
theorem C8_discard_witness :
    handle_response (Json.obj
        [("header", Json.obj [("type", Json.str "QUOTE")])])
      ⟨⟨[], []⟩, []⟩ = Except.ok ⟨⟨[], []⟩, []⟩ ∧
    handle_response (Json.obj
        [("header", Json.obj [("type", Json.str "TRADE")]),
         ("contract", Json.obj
           [("security_type", Json.str "FUTURE"),
            ("root", Json.str "ES")]),
         ("trade", Json.obj [])])
      ⟨⟨[], []⟩, []⟩ = Except.ok ⟨⟨[], []⟩, []⟩ :=
  ⟨C8_discard_spec _ _ _ _ rfl rfl (Or.inl rfl),
   C8_discard_spec _ _ _ _ rfl rfl
     (Or.inr ⟨rfl, _, _, _, rfl, rfl, rfl, rfl, rfl⟩)⟩

end ThetaData
